import Mathlib

/-!
Verification development for the websocket-grid node: a shallow embedding of
`src/app/main/model_manager.py` (model save/get/delete/list over an in-memory
cache, a durable store and an object store) and of the `/cmd` relay handler in
`src/app/main/events.py`, together with theorems about the behaviour of these
operations.

Python exceptions are embedded explicitly: every operation that can raise
returns an `Outcome`, which carries either a returned value or a raised
exception, in both cases together with the state at that point.  `try/except`
blocks become matches on the `Outcome` of the embedded body, filtered by the
class of the caught exception (`IntegrityError` is a subclass of
`SQLAlchemyError`, so `except SQLAlchemyError` catches both).
-/

namespace GridNode

/-- Opaque numeric payload of a tensor (`torch` tensor data is opaque here). -/
abbrev TensorData := Nat

/-- A deserialized model object: either a plain model or a syft `Plan`, which
carries the list of its state-tensor identifiers (`model.state_ids`). -/
inductive Model where
  | plain (payload : Nat)
  | plan (payload : Nat) (state_ids : List String)
deriving DecidableEq, Repr

/-- A serialized model blob (`bytes` on the wire): either the encoding of a
model, or bytes that the serde codec cannot decode. -/
inductive Blob where
  | enc (m : Model)
  | malformed (msg : String)
deriving DecidableEq, Repr

/-- The Python exception classes that can cross the embedded code. -/
inductive Exn where
  | sqlAlchemyError (msg : String)
  | integrityError (msg : String)
  | deserializeError (msg : String)
  | attributeError (msg : String)
  | lookupError (msg : String)
  | decodeError (msg : String)
deriving DecidableEq, Repr

/-- `str(e)` for an embedded exception. -/
def exnStr : Exn → String
  | .sqlAlchemyError m => m
  | .integrityError m => m
  | .deserializeError m => m
  | .attributeError m => m
  | .lookupError m => m
  | .decodeError m => m

/-- Membership of `SQLAlchemyError` — `IntegrityError` is a subclass, so an
`except SQLAlchemyError` clause catches it as well. -/
def isSQLAlchemyError : Exn → Bool
  | .sqlAlchemyError _ => true
  | .integrityError _ => true
  | _ => false

/-- `type(e) is IntegrityError`: an exact class test, not a subclass test. -/
def isExactlyIntegrityError : Exn → Bool
  | .integrityError _ => true
  | _ => false

mutual

/-- A dynamically-typed Python value as it flows through the model manager:
a deserialized model object, raw bytes, or a result dict (the repair path of
`save_model` passes the dict returned by `get_model_with_id` onwards). -/
inductive Val where
  | mdl (m : Model)
  | pyBytes (b : Blob)
  | dict (d : MMResult)

/-- The result dicts built by the model manager:
`{"success": True, "message": ...}`, `{"success": True, "model": ...}`,
`{"success": True, "models": [...]}` and `{"success": False, "error": ...}`. -/
inductive MMResult where
  | okMsg (message : String)
  | okModel (v : Val)
  | okModels (ids : List String)
  | err (error : String)

end

/-- The `"success"` field of a result dict. -/
def MMResult.isSuccess : MMResult → Bool
  | .err _ => false
  | _ => true

/-- `sy.serde.deserialize`: decodes model bytes; raises on malformed bytes and
on arguments that are not bytes at all (the serde codec is an external
collaborator, embedded as this total function into `Except`). -/
def deserialize : Val → Except Exn Model
  | .pyBytes (.enc m) => .ok m
  | .pyBytes (.malformed msg) => .error (.deserializeError msg)
  | .mdl _ => .error (.deserializeError ("deserialize expects bytes"))
  | .dict _ => .error (.deserializeError ("deserialize expects bytes"))

/-- The two durable tables: `TorchModel` rows `(id, model blob)` and
`TorchTensor` rows `(id, tensor payload)`, each with a unique id. -/
structure DBState where
  models : List (String × Blob)
  tensors : List (String × TensorData)
deriving DecidableEq, Repr

/-- The worker's Object Store: a mapping from object identifier to tensor
payload. -/
abbrev ObjStore := List (String × TensorData)

/-- The state the model manager acts on: the module-level `model_cache`, the
database, the worker's object store, and an instrumentation counter that is
incremented on every query/commit against the persistent store (so "no
persistent-store access" is observable). -/
structure NodeState where
  cache : List (String × Val)
  db : DBState
  objStore : ObjStore
  dbAccesses : Nat

/-- Outcome of running embedded Python code over state `σ`: a value returned
normally, or an exception raised, each with the state at that point. -/
inductive Outcome (σ : Type) (α : Type) where
  | ret (a : α) (s : σ)
  | raised (e : Exn) (s : σ)

/-- The state an outcome ends in. -/
def Outcome.stateOf {σ α : Type} : Outcome σ α → σ
  | .ret _ s => s
  | .raised _ s => s

/-- The returned value of an outcome, when it returned normally. -/
def Outcome.retVal {σ α : Type} : Outcome σ α → Option α
  | .ret a _ => some a
  | .raised _ _ => none

/-- Association-list lookup (Python dict lookup / primary-key row lookup). -/
def alookup {α : Type} : List (String × α) → String → Option α
  | [], _ => none
  | (k, v) :: rest, key => if k = key then some v else alookup rest key

/-- `is_model_in_cache`. -/
def is_model_in_cache (model_id : String) (s : NodeState) : Bool :=
  (alookup s.cache model_id).isSome

/-- `get_model_from_cache`: returns the cached value, or `none`. -/
def get_model_from_cache (model_id : String) (s : NodeState) : Option Val :=
  alookup s.cache model_id

/-- `clear_cache`. -/
def clear_cache (s : NodeState) : NodeState :=
  { s with cache := [] }

/-- `save_model_to_cache(model, model_id, serialized)`: no-op when the id is
already cached; otherwise deserializes first when `serialized` is true (which
may raise), then stores under `model_id`. -/
def save_model_to_cache (model : Val) (model_id : String) (serialized : Bool)
    (s : NodeState) : Outcome NodeState Unit :=
  if is_model_in_cache model_id s then .ret () s
  else if serialized then
    match deserialize model with
    | .error e => .raised e s
    | .ok m => .ret () { s with cache := (model_id, Val.mdl m) :: s.cache }
  else .ret () { s with cache := (model_id, model) :: s.cache }

/-- `remove_model_from_cache`: deletes the entry when present (no-op when
absent — the dict never holds a duplicate key, so a filter is the deletion). -/
def remove_model_from_cache (model_id : String) (s : NodeState) : NodeState :=
  { s with cache := s.cache.filter (fun p => p.1 != model_id) }

/-- `list_models`: always queries the database (one persistent-store access)
and returns the list of model ids.  The `except SQLAlchemyError` clause of the
source has no deterministic trigger in this embedding, so the query returns. -/
def list_models (s : NodeState) : Outcome NodeState MMResult :=
  .ret (.okModels (s.db.models.map Prod.fst))
    { s with dbAccesses := s.dbAccesses + 1 }

/-- `_save_model_in_db`: `session.add(TorchModel(...)); session.commit()` —
the commit raises `IntegrityError` when a row with this id already exists
(unique primary key), otherwise appends the row. -/
def _save_model_in_db (serialized_model : Blob) (model_id : String)
    (s : NodeState) : Outcome NodeState Unit :=
  match alookup s.db.models model_id with
  | some _ =>
    .raised (.integrityError ("UNIQUE constraint failed: torch_model.id"))
      { s with dbAccesses := s.dbAccesses + 1 }
  | none =>
    .ret ()
      { s with
        db := { s.db with models := s.db.models ++ [(model_id, serialized_model)] },
        dbAccesses := s.dbAccesses + 1 }

/-- Modelled from the spec: `get_obj` of `local_worker_utils` is not under
`src/`; per the spec the Object Store offers lookup by object identifier, and
looking up an unknown identifier is a failure. -/
def get_obj (os : ObjStore) (obj_id : String) : Except Exn TensorData :=
  match alookup os obj_id with
  | some t => .ok t
  | none => .error (.lookupError ("Object not found: " ++ obj_id))

/-- Modelled from the spec: `register_obj` of `local_worker_utils` is not
under `src/`; per the spec the Object Store offers registration of an object
under an identifier (replacing any previous object under that identifier). -/
def register_obj (obj : TensorData) (obj_id : String) (os : ObjStore) : ObjStore :=
  (obj_id, obj) :: os.filter (fun p => p.1 != obj_id)

/-- The tensor-collecting loop of `_save_states_in_db`: look up every
`state_id` in the Object Store (raising when one is missing) and build the
list of `TorchTensor` rows to insert. -/
def collect_tensors (state_ids : List String) (os : ObjStore) :
    Except Exn (List (String × TensorData)) :=
  match state_ids with
  | [] => .ok []
  | sid :: rest =>
    match get_obj os sid with
    | .error e => .error e
    | .ok t =>
      match collect_tensors rest os with
      | .error e => .error e
      | .ok ts => .ok ((sid, t) :: ts)

/-- Whether committing the batch of tensor rows violates id uniqueness: some
row's id already exists in the table, or the batch repeats an id. -/
def tensor_ids_violate : List (String × TensorData) → List (String × TensorData) → Bool
  | [], _ => false
  | (sid, _) :: rest, table =>
    (alookup table sid).isSome || rest.any (fun p => p.1 == sid)
      || tensor_ids_violate rest table

/-- `_save_states_in_db`: collect the state tensors from the Object Store,
then `session.add_all(tensors); session.commit()` — the commit raises
`IntegrityError` on a uniqueness violation (and then inserts nothing),
otherwise appends all rows. -/
def _save_states_in_db (state_ids : List String) (s : NodeState) :
    Outcome NodeState Unit :=
  match collect_tensors state_ids s.objStore with
  | .error e => .raised e s
  | .ok ts =>
    if tensor_ids_violate ts s.db.tensors then
      .raised (.integrityError ("UNIQUE constraint failed: torch_tensor.id"))
        { s with dbAccesses := s.dbAccesses + 1 }
    else
      .ret ()
        { s with
          db := { s.db with tensors := s.db.tensors ++ ts },
          dbAccesses := s.dbAccesses + 1 }

/-- `_get_model_from_db`: one primary-key query; returns the row or `None`. -/
def _get_model_from_db (model_id : String) (s : NodeState) :
    Option Blob × NodeState :=
  (alookup s.db.models model_id, { s with dbAccesses := s.dbAccesses + 1 })

/-- `_retrieve_state`: for every `state_id`, query the `TorchTensor` row and
register its payload into the Object Store.  When the row is missing the query
returns `None` and `result.object` raises `AttributeError`. -/
def _retrieve_state : List String → NodeState → Outcome NodeState Unit
  | [], s => .ret () s
  | sid :: rest, s =>
    match alookup s.db.tensors sid with
    | none =>
      .raised (.attributeError ("NoneType object has no attribute object"))
        { s with dbAccesses := s.dbAccesses + 1 }
    | some t =>
      _retrieve_state rest
        { s with objStore := register_obj t sid s.objStore,
                 dbAccesses := s.dbAccesses + 1 }

/-- The `try` body of `get_model_with_id` (reached on a cache miss). -/
def get_model_body (model_id : String) (s : NodeState) :
    Outcome NodeState MMResult :=
  match _get_model_from_db model_id s with
  | (none, s1) => .ret (.err ("Model not found")) s1
  | (some row, s1) =>
    match deserialize (.pyBytes row) with
    | .error e => .raised e s1
    | .ok model =>
      match (match model with
             | .plan _ ids => _retrieve_state ids s1
             | .plain _ => .ret () s1) with
      | .raised e s2 => .raised e s2
      | .ret _ s2 =>
        match save_model_to_cache (.mdl model) model_id false s2 with
        | .raised e s3 => .raised e s3
        | .ret _ s3 => .ret (.okModel (.mdl model)) s3

/-- `get_model_with_id`: serve a cache hit directly (the source's
`is_model_in_cache` test and `get_model_from_cache` read are the one lookup);
on a miss run the body under `except SQLAlchemyError`. -/
def get_model_with_id (model_id : String) (s : NodeState) :
    Outcome NodeState MMResult :=
  match get_model_from_cache model_id s with
  | some v => .ret (.okModel v) s
  | none =>
    match get_model_body model_id s with
    | .ret r s1 => .ret r s1
    | .raised e s1 =>
      if isSQLAlchemyError e then .ret (.err (exnStr e)) s1 else .raised e s1

/-- The `try` body of `save_model`: persist the blob, deserialize it, cache
it, and for a `Plan` persist its state tensors. -/
def save_model_body (serialized_model : Blob) (model_id : String)
    (s : NodeState) : Outcome NodeState MMResult :=
  match _save_model_in_db serialized_model model_id s with
  | .raised e s1 => .raised e s1
  | .ret _ s1 =>
    match deserialize (.pyBytes serialized_model) with
    | .error e => .raised e s1
    | .ok model =>
      match save_model_to_cache (.mdl model) model_id false s1 with
      | .raised e s2 => .raised e s2
      | .ret _ s2 =>
        match model with
        | .plain _ => .ret (.okMsg ("Model saved with id: " ++ model_id)) s2
        | .plan _ ids =>
          match _save_states_in_db ids s2 with
          | .raised e s3 => .raised e s3
          | .ret _ s3 => .ret (.okMsg ("Model saved with id: " ++ model_id)) s3

/-- The `except (SQLAlchemyError, IntegrityError)` handler of `save_model`:
on an exact `IntegrityError`, fetch the model (which caches it as a side
effect) and hand the returned dict — a non-empty dict, hence truthy — to
`save_model_to_cache` with `serialized=True`; finally report failure with
`str(e)`.  Exceptions raised inside the handler propagate. -/
def save_model_handler (e : Exn) (model_id : String) (s : NodeState) :
    Outcome NodeState MMResult :=
  if isExactlyIntegrityError e then
    match get_model_with_id model_id s with
    | .raised e2 s1 => .raised e2 s1
    | .ret db_model s1 =>
      match save_model_to_cache (.dict db_model) model_id true s1 with
      | .raised e3 s2 => .raised e3 s2
      | .ret _ s2 => .ret (.err (exnStr e)) s2
  else .ret (.err (exnStr e)) s

/-- `save_model`: duplicate short-circuit on a cache hit, otherwise the body
under the `except (SQLAlchemyError, IntegrityError)` handler. -/
def save_model (serialized_model : Blob) (model_id : String) (s : NodeState) :
    Outcome NodeState MMResult :=
  if is_model_in_cache model_id s then
    .ret (.err ("Model with id: " ++ model_id ++ " already eixsts.")) s
  else
    match save_model_body serialized_model model_id s with
    | .ret r s1 => .ret r s1
    | .raised e s1 =>
      if isSQLAlchemyError e then save_model_handler e model_id s1
      else .raised e s1

/-- The `try` body of `delete_model`: remove the cache entry, query the row,
`session.delete(result); session.commit()`.  When the row is missing,
`session.delete(None)` raises `UnmappedInstanceError`, a subclass of
`SQLAlchemyError`. -/
def delete_model_body (model_id : String) (s : NodeState) :
    Outcome NodeState MMResult :=
  match
    alookup (remove_model_from_cache model_id s).db.models model_id,
    { remove_model_from_cache model_id s with
      dbAccesses := s.dbAccesses + 1 } with
  | none, s1 => .raised (.sqlAlchemyError ("Class NoneType is not mapped")) s1
  | some _, s1 =>
    .ret (.okMsg ("Model Deleted: " ++ model_id))
      { s1 with
        db := { s1.db with
                models := s1.db.models.filter (fun p => p.1 != model_id) } }

/-- `delete_model`: the body under `except SQLAlchemyError`. -/
def delete_model (model_id : String) (s : NodeState) :
    Outcome NodeState MMResult :=
  match delete_model_body model_id s with
  | .ret r s1 => .ret r s1
  | .raised e s1 =>
    if isSQLAlchemyError e then .ret (.err (exnStr e)) s1 else .raised e s1

/-- The state-tensor identifiers of a model (`[]` for a plain model). -/
def state_ids : Model → List String
  | .plain _ => []
  | .plan _ ids => ids

/-- Every state tensor of the model has a row in the tensor table (the
condition under which `_retrieve_state` succeeds). -/
def retrieve_ok (m : Model) (tensors : List (String × TensorData)) : Bool :=
  (state_ids m).all (fun sid => (alookup tensors sid).isSome)

/-! ## Command relay (`/cmd` handler of `src/app/main/events.py`) -/

/-- The relay's state: the worker's current objects, the durable snapshot
image, and an instrumentation counter of recovery invocations. -/
structure RelayState where
  objStore : ObjStore
  snapshotStore : ObjStore
  recoveryCalls : Nat
deriving DecidableEq, Repr

/-- The external execution engine (`worker._recv_msg`): raw command bytes and
the current object store in, raw response bytes and the mutated object store
out, or an exception. -/
abbrev Engine := List Nat → ObjStore → Except Exn (List Nat × ObjStore)

/-- Modelled from the spec: `recover_objects` of `persistence/utils` is not
under `src/`; per the spec recovery returns the last snapshot image (or empty
if none exists) and rehydrates the Object Store from it.  The counter records
the invocation. -/
def recover_objects (rs : RelayState) : RelayState :=
  { rs with objStore := rs.snapshotStore,
            recoveryCalls := rs.recoveryCalls + 1 }

/-- Modelled from the spec: `snapshot` of `persistence/utils` is not under
`src/`; per the spec it writes a full durable image of the current Object
Store. -/
def snapshot (rs : RelayState) : RelayState :=
  { rs with snapshotStore := rs.objStore }

/-- The cold-check: `if not len(worker.current_objects()): recover_objects(hook)`. -/
def cold_check (rs : RelayState) : RelayState :=
  if rs.objStore.length == 0 then recover_objects rs else rs

/-- Value of a hexadecimal digit character, if it is one. -/
def hexDigitVal (c : Char) : Option Nat :=
  if 48 ≤ c.toNat ∧ c.toNat ≤ 57 then some (c.toNat - 48)
  else if 97 ≤ c.toNat ∧ c.toNat ≤ 102 then some (c.toNat - 87)
  else if 65 ≤ c.toNat ∧ c.toNat ≤ 70 then some (c.toNat - 55)
  else none

/-- Pairwise hex decoding of an even-length character list. -/
def unhexPairs : List Char → Except Exn (List Nat)
  | [] => .ok []
  | [_] => .error (.decodeError ("Odd-length string"))
  | c1 :: c2 :: rest =>
    match hexDigitVal c1, hexDigitVal c2 with
    | some h, some l =>
      match unhexPairs rest with
      | .error e => .error e
      | .ok bs => .ok ((16 * h + l) :: bs)
    | _, _ => .error (.decodeError ("Non-hexadecimal digit found"))

/-- `binascii.unhexlify`: rejects odd-length input, then decodes hex pairs. -/
def unhexlify (s : String) : Except Exn (List Nat) :=
  if s.length % 2 == 1 then .error (.decodeError ("Odd-length string"))
  else unhexPairs s.data

/-- Lowercase hex digit character for a value below 16. -/
def hexChar (n : Nat) : Char :=
  if n < 10 then Char.ofNat (48 + n) else Char.ofNat (87 + n)

/-- `binascii.hexlify` as a string: two lowercase hex digits per byte. -/
def toHexString : List Nat → String
  | [] => ""
  | b :: rest =>
    String.mk [hexChar ((b % 256) / 16), hexChar (b % 16)] ++ toHexString rest

/-- `str(bytes)` of an all-hex-digit bytes value: the `b` prefix plus the
characters between single quotes. -/
def bytesRepr (bs : List Nat) : String :=
  "b\x27" ++ toHexString bs ++ "\x27"

/-- Python's `s[2:-1]`: the characters of `s` with the first two and the last
one removed (empty when `s` is too short, as in Python). -/
def strSlice_2_m1 (s : String) : String :=
  String.mk ((s.data.drop 2).dropLast)

/-- The `try` body of the `/cmd` handler: cold-check (recover when the Object
Store holds zero objects), strip the `b` framing and hex-decode the payload,
run the execution engine, snapshot the store, and build the response as the
repr of the hexlified response bytes. -/
def cmd_body (engine : Engine) (message : String) (rs : RelayState) :
    Outcome RelayState String :=
  match unhexlify (strSlice_2_m1 message), cold_check rs with
  | .error e, rs1 => .raised e rs1
  | .ok decoded_message, rs1 =>
    match engine decoded_message rs1.objStore with
    | .error e => .raised e rs1
    | .ok (decoded_response, os) =>
      .ret (bytesRepr decoded_response) (snapshot { rs1 with objStore := os })

/-- The `/cmd` handler: the body under `except Exception`, which emits
`str(e)` in the normal response slot, so the handler always returns. -/
def cmd (engine : Engine) (message : String) (rs : RelayState) :
    String × RelayState :=
  match cmd_body engine message rs with
  | .ret resp s => (resp, s)
  | .raised e s => (exnStr e, s)

/-! ## Helper lemmas about association lists -/

lemma alookup_cons_self {α : Type} (k : String) (v : α) (l : List (String × α)) :
    alookup ((k, v) :: l) k = some v := by
  simp [alookup]

lemma alookup_cons_ne {α : Type} {k k' : String} (v : α) (l : List (String × α))
    (h : k' ≠ k) : alookup ((k', v) :: l) k = alookup l k := by
  simp [alookup, h]

lemma alookup_append_of_none {α : Type} {l1 : List (String × α)} {k : String}
    (l2 : List (String × α)) (h : alookup l1 k = none) :
    alookup (l1 ++ l2) k = alookup l2 k := by
  induction l1 with
  | nil => simp
  | cons p rest ih =>
    obtain ⟨a, b⟩ := p
    by_cases hk : a = k
    · subst hk; simp [alookup] at h
    · simp only [alookup, hk, if_false, List.cons_append] at h ⊢
      exact ih h

lemma alookup_filter_self {α : Type} (l : List (String × α)) (k : String) :
    alookup (l.filter (fun p => p.1 != k)) k = none := by
  induction l with
  | nil => simp [alookup]
  | cons p rest ih =>
    obtain ⟨a, b⟩ := p
    by_cases hk : a = k
    · subst hk; simpa [List.filter_cons] using ih
    · simpa [List.filter_cons, bne_iff_ne, hk, alookup] using ih

lemma alookup_filter_ne {α : Type} (l : List (String × α)) {k k' : String}
    (h : k ≠ k') : alookup (l.filter (fun p => p.1 != k')) k = alookup l k := by
  induction l with
  | nil => simp
  | cons p rest ih =>
    obtain ⟨a, b⟩ := p
    by_cases hk : a = k'
    · subst hk
      have hak : a ≠ k := fun hc => h hc.symm
      simpa [List.filter_cons, alookup, hak] using ih
    · by_cases hak : a = k
      · subst hak
        simp [List.filter_cons, bne_iff_ne, hk, alookup]
      · simpa [List.filter_cons, bne_iff_ne, hk, alookup, hak] using ih

/-! ## Model-manager helper lemmas -/

lemma is_model_in_cache_false {model_id : String} {s : NodeState}
    (h : alookup s.cache model_id = none) :
    is_model_in_cache model_id s = false := by
  unfold is_model_in_cache
  rw [h]
  rfl

lemma is_model_in_cache_true {model_id : String} {s : NodeState} {v : Val}
    (h : alookup s.cache model_id = some v) :
    is_model_in_cache model_id s = true := by
  unfold is_model_in_cache
  rw [h]
  rfl

lemma deserialize_error_not_sql {v : Val} {e : Exn}
    (h : deserialize v = .error e) : isSQLAlchemyError e = false := by
  cases v with
  | mdl m => cases h; rfl
  | dict d => cases h; rfl
  | pyBytes b =>
    cases b with
    | enc m => cases h
    | malformed msg => cases h; rfl

lemma alookup_register_self {t : TensorData} (k : String) (os : ObjStore) :
    alookup (register_obj t k os) k = some t := by
  simp [register_obj, alookup]

lemma alookup_register_ne {t : TensorData} {k k' : String} (os : ObjStore)
    (h : k' ≠ k) : alookup (register_obj t k os) k' = alookup os k' := by
  unfold register_obj
  rw [alookup_cons_ne _ _ (fun hh => h hh.symm), alookup_filter_ne _ h]

/-- `_retrieve_state` succeeds when every state id has a tensor row, leaves
cache and database untouched, and registers exactly the stored tensor payloads
into the Object Store. -/
lemma retrieve_state_ok : ∀ (ids : List String) (s : NodeState),
    ids.all (fun sid => (alookup s.db.tensors sid).isSome) = true →
    ∃ os' n, _retrieve_state ids s = .ret () ⟨s.cache, s.db, os', n⟩
      ∧ (∀ sid ∈ ids, alookup os' sid = alookup s.db.tensors sid)
      ∧ (∀ sid, sid ∉ ids → alookup os' sid = alookup s.objStore sid) := by
  intro ids
  induction ids with
  | nil =>
    intro s h
    exact ⟨s.objStore, s.dbAccesses, rfl, by simp, fun sid _ => rfl⟩
  | cons sid rest ih =>
    intro s h
    simp only [List.all_cons, Bool.and_eq_true] at h
    obtain ⟨h1, h2⟩ := h
    obtain ⟨t, ht⟩ := Option.isSome_iff_exists.mp h1
    obtain ⟨os', n, heq, hin, hout⟩ :=
      ih ⟨s.cache, s.db, register_obj t sid s.objStore, s.dbAccesses + 1⟩ h2
    refine ⟨os', n, ?_, ?_, ?_⟩
    · simp only [_retrieve_state, ht]
      exact heq
    · intro x hx
      rcases List.mem_cons.mp hx with hx1 | hx2
      · subst hx1
        by_cases hsr : x ∈ rest
        · exact hin x hsr
        · have h3 := hout x hsr
          rw [h3, alookup_register_self, ht]
      · exact hin x hx2
    · intro x hx
      rw [List.mem_cons] at hx
      push_neg at hx
      obtain ⟨hx1, hx2⟩ := hx
      have h3 := hout x hx2
      rw [h3, alookup_register_ne _ hx1]

/-- A cache hit serves `get_model_with_id` directly from the cache, with no
state change (in particular no persistent-store access). -/
lemma gmw_cache_hit {model_id : String} {s : NodeState} {v : Val}
    (h : alookup s.cache model_id = some v) :
    get_model_with_id model_id s = .ret (.okModel v) s := by
  simp only [get_model_with_id, get_model_from_cache, h]

/-- A cache miss with no durable row fails with `Model not found` after one
persistent-store query. -/
lemma gmw_not_found {model_id : String} {s : NodeState}
    (hc : alookup s.cache model_id = none)
    (hdb : alookup s.db.models model_id = none) :
    get_model_with_id model_id s
      = .ret (.err ("Model not found")) { s with dbAccesses := s.dbAccesses + 1 } := by
  simp only [get_model_with_id, get_model_from_cache, hc, get_model_body,
    _get_model_from_db, hdb]

/-- A cache miss with a durable row that deserializes (and whose state
tensors, for a Plan, are all present) returns the deserialized model, caches
it, and registers the Plan's tensors into the Object Store. -/
lemma gmw_db_hit {model_id : String} {s : NodeState} {blob : Blob} {m : Model}
    (hc : alookup s.cache model_id = none)
    (hdbm : alookup s.db.models model_id = some blob)
    (hd : deserialize (.pyBytes blob) = .ok m)
    (ht : (state_ids m).all (fun sid => (alookup s.db.tensors sid).isSome) = true) :
    ∃ os' n, get_model_with_id model_id s
        = .ret (.okModel (.mdl m)) ⟨(model_id, .mdl m) :: s.cache, s.db, os', n⟩
      ∧ (∀ sid ∈ state_ids m, alookup os' sid = alookup s.db.tensors sid)
      ∧ (∀ sid, sid ∉ state_ids m → alookup os' sid = alookup s.objStore sid) := by
  cases m with
  | plain payload =>
    refine ⟨s.objStore, s.dbAccesses + 1, ?_, by simp [state_ids], fun sid _ => rfl⟩
    simp only [get_model_with_id, get_model_from_cache, hc, get_model_body,
      _get_model_from_db, hdbm, hd, save_model_to_cache, is_model_in_cache, hc]
    rfl
  | plan payload ids =>
    obtain ⟨os', n, heq, hin, hout⟩ :=
      retrieve_state_ok ids ⟨s.cache, s.db, s.objStore, s.dbAccesses + 1⟩ ht
    refine ⟨os', n, ?_, hin, hout⟩
    simp only [get_model_with_id, get_model_from_cache, hc, get_model_body,
      _get_model_from_db, hdbm, hd, heq, save_model_to_cache, is_model_in_cache, hc]
    rfl

lemma cache_lookup_none_of_false {model_id : String} {s : NodeState}
    (h : is_model_in_cache model_id s = false) :
    alookup s.cache model_id = none := by
  unfold is_model_in_cache at h
  cases hx : alookup s.cache model_id with
  | none => rfl
  | some v => rw [hx] at h; exact Bool.noConfusion h

/-- Storing an uncached, already-deserialized model prepends it to the cache. -/
lemma smc_store (v : Val) {model_id : String} {s : NodeState}
    (h : is_model_in_cache model_id s = false) :
    save_model_to_cache v model_id false s
      = .ret () { s with cache := (model_id, v) :: s.cache } := by
  unfold save_model_to_cache
  rw [if_neg (by simp [h])]
  rfl

/-- `save_model_to_cache` is a no-op on a cache hit. -/
lemma smc_hit (v : Val) (b : Bool) {model_id : String} {s : NodeState}
    (h : is_model_in_cache model_id s = true) :
    save_model_to_cache v model_id b s = .ret () s := by
  unfold save_model_to_cache
  rw [if_pos h]

lemma smc_raised_not_sql {v : Val} {model_id : String} {b : Bool}
    {s : NodeState} {e : Exn} {s1 : NodeState}
    (h : save_model_to_cache v model_id b s = .raised e s1) :
    isSQLAlchemyError e = false := by
  unfold save_model_to_cache at h
  split at h
  · exact Outcome.noConfusion h
  · split at h
    · split at h
      · rename_i heq
        cases h
        exact deserialize_error_not_sql heq
      · exact Outcome.noConfusion h
    · exact Outcome.noConfusion h

lemma smdb_stateOf_cache (blob : Blob) (model_id : String) (s : NodeState) :
    (_save_model_in_db blob model_id s).stateOf.cache = s.cache := by
  unfold _save_model_in_db
  split <;> rfl

lemma states_stateOf_cache (ids : List String) (s : NodeState) :
    (_save_states_in_db ids s).stateOf.cache = s.cache := by
  unfold _save_states_in_db
  split
  · rfl
  · split <;> rfl

lemma gmw_raised_not_sql {model_id : String} {s : NodeState} {e : Exn}
    {s1 : NodeState} (h : get_model_with_id model_id s = .raised e s1) :
    isSQLAlchemyError e = false := by
  unfold get_model_with_id at h
  split at h
  · exact Outcome.noConfusion h
  · split at h
    · exact Outcome.noConfusion h
    · split at h
      · exact Outcome.noConfusion h
      · rename_i hn
        cases h
        simpa using hn

lemma handler_ret_not_success {e : Exn} {model_id : String} {s : NodeState}
    {r : MMResult} {s1 : NodeState}
    (h : save_model_handler e model_id s = .ret r s1) :
    r.isSuccess = false := by
  unfold save_model_handler at h
  split at h
  · split at h
    · exact Outcome.noConfusion h
    · split at h
      · exact Outcome.noConfusion h
      · cases h; rfl
  · cases h; rfl

lemma handler_raised_not_sql {e0 : Exn} {model_id : String} {s : NodeState}
    {e : Exn} {s1 : NodeState}
    (h : save_model_handler e0 model_id s = .raised e s1) :
    isSQLAlchemyError e = false := by
  unfold save_model_handler at h
  split at h
  · split at h
    · rename_i heq
      cases h
      exact gmw_raised_not_sql heq
    · split at h
      · rename_i heq2
        cases h
        exact smc_raised_not_sql heq2
      · exact Outcome.noConfusion h
  · exact Outcome.noConfusion h

lemma save_model_raised_not_sql {blob : Blob} {model_id : String}
    {s : NodeState} {e : Exn} {s1 : NodeState}
    (h : save_model blob model_id s = .raised e s1) :
    isSQLAlchemyError e = false := by
  unfold save_model at h
  split at h
  · exact Outcome.noConfusion h
  · split at h
    · exact Outcome.noConfusion h
    · split at h
      · exact handler_raised_not_sql h
      · rename_i hn
        cases h
        simpa using hn

/-- If the body of `save_model` returns, the model deserialized from the blob
has been stored in the cache under the requested id. -/
lemma save_body_success_cache {blob : Blob} {model_id : String} {s : NodeState}
    {r : MMResult} {s1 : NodeState}
    (hbody : save_model_body blob model_id s = .ret r s1)
    {m : Model} (hd : deserialize (.pyBytes blob) = .ok m)
    (hnc : alookup s.cache model_id = none) :
    alookup s1.cache model_id = some (.mdl m) := by
  unfold save_model_body at hbody
  split at hbody
  · exact Outcome.noConfusion hbody
  · rename_i u s2 hdbeq
    have hc2 : s2.cache = s.cache := by
      have h2 := smdb_stateOf_cache blob model_id s
      rw [hdbeq] at h2
      exact h2
    have hmiss2 : is_model_in_cache model_id s2 = false :=
      is_model_in_cache_false (by rw [hc2]; exact hnc)
    simp only [hd, smc_store (Val.mdl m) hmiss2] at hbody
    cases m with
    | plain payload =>
      simp only [] at hbody
      cases hbody
      rw [alookup_cons_self]
    | plan payload ids =>
      simp only [] at hbody
      split at hbody
      · exact Outcome.noConfusion hbody
      · rename_i u4 s4 hst
        cases hbody
        have h4 := states_stateOf_cache ids
          { s2 with cache := (model_id, Val.mdl (.plan payload ids)) :: s2.cache }
        rw [hst] at h4
        simp only [Outcome.stateOf] at h4
        rw [h4, alookup_cons_self]

/-- If `save_model` returns a success result, the model deserialized from the
blob is in the cache under the requested id in the returned state. -/
lemma save_ret_success_cache {blob : Blob} {model_id : String} {s : NodeState}
    {r : MMResult} {s1 : NodeState}
    (h : save_model blob model_id s = .ret r s1) (hs : r.isSuccess = true)
    {m : Model} (hd : deserialize (.pyBytes blob) = .ok m) :
    alookup s1.cache model_id = some (.mdl m) := by
  unfold save_model at h
  split at h
  · cases h
    exact Bool.noConfusion hs
  · rename_i hnc
    split at h
    · rename_i r0 s0 hbody
      cases h
      exact save_body_success_cache hbody hd
        (cache_lookup_none_of_false (by simpa using hnc))
    · split at h
      · have hf := handler_ret_not_success h
        rw [hf] at hs
        exact Bool.noConfusion hs
      · exact Outcome.noConfusion h

/-! ## Model-manager claim theorems -/

/-- C1: after a successful `save_model` for an id, a second `save_model` with
the same id returns a duplicate-model failure from the cache short-circuit,
leaving the state (in particular the persistent store and the access counter)
unchanged, and `get_model_with_id` returns the model content of the first
successful save. -/
theorem save_idempotent_duplicate (blob blob2 : Blob) (model_id : String)
    (s s1 : NodeState) (r : MMResult) (m : Model)
    (h : save_model blob model_id s = .ret r s1) (hs : r.isSuccess = true)
    (hd : deserialize (.pyBytes blob) = .ok m) :
    save_model blob2 model_id s1
        = .ret (.err ("Model with id: " ++ model_id ++ " already eixsts.")) s1 ∧
    get_model_with_id model_id s1 = .ret (.okModel (.mdl m)) s1 := by
  have hcache := save_ret_success_cache h hs hd
  refine ⟨?_, gmw_cache_hit hcache⟩
  unfold save_model
  rw [if_pos (is_model_in_cache_true hcache)]

/-- Witness for C1: saving a model twice under the same id. -/
theorem save_idempotent_duplicate_witness :
    save_model (.enc (.plain 6)) ("m")
        ⟨[("m", .mdl (.plain 5))], ⟨[("m", .enc (.plain 5))], []⟩, [], 1⟩
      = .ret (.err ("Model with id: m already eixsts."))
          ⟨[("m", .mdl (.plain 5))], ⟨[("m", .enc (.plain 5))], []⟩, [], 1⟩ ∧
    get_model_with_id ("m")
        ⟨[("m", .mdl (.plain 5))], ⟨[("m", .enc (.plain 5))], []⟩, [], 1⟩
      = .ret (.okModel (.mdl (.plain 5)))
          ⟨[("m", .mdl (.plain 5))], ⟨[("m", .enc (.plain 5))], []⟩, [], 1⟩ := by
  exact save_idempotent_duplicate (.enc (.plain 5)) (.enc (.plain 6)) ("m")
    ⟨[], ⟨[], []⟩, [], 0⟩
    ⟨[("m", .mdl (.plain 5))], ⟨[("m", .enc (.plain 5))], []⟩, [], 1⟩
    (.okMsg ("Model saved with id: m")) (.plain 5) (by rfl) (by rfl) (by rfl)

/-- C3: after a successful `save_model`, `get_model_with_id` returns a
success result carrying the deserialization of the saved blob, with the state
unchanged — in particular the persistent-store access counter is untouched,
so the call performs no persistent-store query. -/
theorem get_after_save_cache_coherence (blob : Blob) (model_id : String)
    (s s1 : NodeState) (r : MMResult) (m : Model)
    (h : save_model blob model_id s = .ret r s1) (hs : r.isSuccess = true)
    (hd : deserialize (.pyBytes blob) = .ok m) :
    get_model_with_id model_id s1 = .ret (.okModel (.mdl m)) s1 ∧
    (get_model_with_id model_id s1).stateOf.dbAccesses = s1.dbAccesses := by
  have hg := gmw_cache_hit (save_ret_success_cache h hs hd)
  exact ⟨hg, by rw [hg]; rfl⟩

/-- Witness for C3: a cache-served `get` after a fresh save. -/
theorem get_after_save_cache_coherence_witness :
    get_model_with_id ("m")
        ⟨[("m", .mdl (.plain 5))], ⟨[("m", .enc (.plain 5))], []⟩, [], 1⟩
      = .ret (.okModel (.mdl (.plain 5)))
          ⟨[("m", .mdl (.plain 5))], ⟨[("m", .enc (.plain 5))], []⟩, [], 1⟩ ∧
    (get_model_with_id ("m")
        ⟨[("m", .mdl (.plain 5))], ⟨[("m", .enc (.plain 5))], []⟩, [], 1⟩).stateOf.dbAccesses
      = 1 := by
  exact get_after_save_cache_coherence (.enc (.plain 5)) ("m")
    ⟨[], ⟨[], []⟩, [], 0⟩
    ⟨[("m", .mdl (.plain 5))], ⟨[("m", .enc (.plain 5))], []⟩, [], 1⟩
    (.okMsg ("Model saved with id: m")) (.plain 5) (by rfl) (by rfl) (by rfl)

/-- C4: for a Plan whose state tensors were persisted, a `get_model_with_id`
that misses the Cache fetches, for every `state_id` of the Plan, the matching
tensor record from the Persistent Store and registers it into the Object
Store before returning; afterwards the model is also present in the Cache. -/
theorem plan_rehydration_on_get (model_id : String) (s : NodeState) (p : Nat)
    (ids : List String) (blob : Blob)
    (hc : alookup s.cache model_id = none)
    (hdbm : alookup s.db.models model_id = some blob)
    (hd : deserialize (.pyBytes blob) = .ok (.plan p ids))
    (ht : ids.all (fun sid => (alookup s.db.tensors sid).isSome) = true) :
    (get_model_with_id model_id s).retVal = some (.okModel (.mdl (.plan p ids))) ∧
    (∀ sid ∈ ids, alookup (get_model_with_id model_id s).stateOf.objStore sid
        = alookup s.db.tensors sid) ∧
    alookup (get_model_with_id model_id s).stateOf.cache model_id
        = some (.mdl (.plan p ids)) := by
  obtain ⟨os', n, heq, hin, hout⟩ := gmw_db_hit hc hdbm hd ht
  rw [heq]
  exact ⟨rfl, hin, alookup_cons_self _ _ _⟩

/-- Witness for C4: a Plan with state ids `t1`, `t2` whose tensors are in the
Persistent Store is rehydrated into the Object Store by a cold `get`. -/
theorem plan_rehydration_on_get_witness :
    (∀ sid ∈ (["t1", "t2"] : List String),
      alookup (get_model_with_id ("m")
        ⟨[], ⟨[("m", .enc (.plan 7 ["t1", "t2"]))], [("t1", 11), ("t2", 22)]⟩,
          [], 0⟩).stateOf.objStore sid
        = alookup ([("t1", 11), ("t2", 22)]) sid) ∧
    alookup (get_model_with_id ("m")
        ⟨[], ⟨[("m", .enc (.plan 7 ["t1", "t2"]))], [("t1", 11), ("t2", 22)]⟩,
          [], 0⟩).stateOf.cache ("m")
        = some (.mdl (.plan 7 ["t1", "t2"])) := by
  have h := plan_rehydration_on_get ("m")
    ⟨[], ⟨[("m", .enc (.plan 7 ["t1", "t2"]))], [("t1", 11), ("t2", 22)]⟩, [], 0⟩
    7 (["t1", "t2"]) (.enc (.plan 7 ["t1", "t2"]))
    (by rfl) (by rfl) (by rfl) (by rfl)
  exact ⟨h.2.1, h.2.2⟩

/-- Counterexample to C2 as stated: with a malformed blob durably stored
under `m` and no cache entry, `save_model` hits the uniqueness violation, but
the repair path's deserialization raises, the exception propagates out of
`save_model` (no failure result is returned), and the cache is not
populated. -/
theorem save_repair_raises_on_malformed_record :
    save_model (.enc (.plain 0)) ("m")
        ⟨[], ⟨[("m", .malformed ("boom"))], []⟩, [], 0⟩
      = .raised (.deserializeError ("boom"))
          ⟨[], ⟨[("m", .malformed ("boom"))], []⟩, [], 2⟩ := by
  rfl

/-- On a uniqueness violation against a well-formed durable record, the
handler of `save_model` loads and deserializes the record, populates the
cache with it, and reports the save as failed. -/
lemma save_integrity_repair {blob2 blob0 : Blob} {model_id : String}
    {s : NodeState} {m : Model}
    (hc : alookup s.cache model_id = none)
    (hdbm : alookup s.db.models model_id = some blob0)
    (hd : deserialize (.pyBytes blob0) = .ok m)
    (ht : (state_ids m).all (fun sid => (alookup s.db.tensors sid).isSome) = true) :
    ∃ os' n, save_model blob2 model_id s
      = .ret (.err ("UNIQUE constraint failed: torch_model.id"))
          ⟨(model_id, .mdl m) :: s.cache, s.db, os', n⟩ := by
  have hmiss : is_model_in_cache model_id s = false := is_model_in_cache_false hc
  have hbody : save_model_body blob2 model_id s
      = .raised (.integrityError ("UNIQUE constraint failed: torch_model.id"))
          { s with dbAccesses := s.dbAccesses + 1 } := by
    simp only [save_model_body, _save_model_in_db, hdbm]
  obtain ⟨os', n, hget, hin, hout⟩ :=
    @gmw_db_hit model_id { s with dbAccesses := s.dbAccesses + 1 } blob0 m
      hc hdbm hd ht
  refine ⟨os', n, ?_⟩
  unfold save_model
  rw [if_neg (by simp [hmiss])]
  simp only [hbody, isSQLAlchemyError, save_model_handler, isExactlyIntegrityError,
    hget, save_model_to_cache, is_model_in_cache, alookup_cons_self,
    Option.isSome_some, exnStr]
  rfl

/-- C2 (amended): for a model id durably stored but absent from the Cache,
provided the stored record deserializes and (for a Plan) its state tensors
are all present, `save_model` triggers a uniqueness violation, loads the
durable record, deserializes it, places the deserialized model into the
Cache, and returns a failure result, leaving the database unchanged. -/
theorem save_repairs_cache_when_record_wellformed (blob2 blob0 : Blob)
    (model_id : String) (s : NodeState) (m : Model)
    (hc : alookup s.cache model_id = none)
    (hdbm : alookup s.db.models model_id = some blob0)
    (hd : deserialize (.pyBytes blob0) = .ok m)
    (ht : (state_ids m).all (fun sid => (alookup s.db.tensors sid).isSome) = true) :
    (save_model blob2 model_id s).retVal
        = some (.err ("UNIQUE constraint failed: torch_model.id")) ∧
    alookup (save_model blob2 model_id s).stateOf.cache model_id
        = some (.mdl m) ∧
    (save_model blob2 model_id s).stateOf.db = s.db := by
  obtain ⟨os', n, hsave⟩ := save_integrity_repair hc hdbm hd ht
  rw [hsave]
  exact ⟨rfl, alookup_cons_self _ _ _, rfl⟩

/-- Witness for C2 (amended): repairing the cache from a durable record. -/
theorem save_repairs_cache_when_record_wellformed_witness :
    (save_model (.enc (.plain 9)) ("m")
        ⟨[], ⟨[("m", .enc (.plain 5))], []⟩, [], 0⟩).retVal
      = some (.err ("UNIQUE constraint failed: torch_model.id")) ∧
    alookup (save_model (.enc (.plain 9)) ("m")
        ⟨[], ⟨[("m", .enc (.plain 5))], []⟩, [], 0⟩).stateOf.cache ("m")
      = some (.mdl (.plain 5)) ∧
    (save_model (.enc (.plain 9)) ("m")
        ⟨[], ⟨[("m", .enc (.plain 5))], []⟩, [], 0⟩).stateOf.db
      = ⟨[("m", .enc (.plain 5))], []⟩ := by
  exact save_repairs_cache_when_record_wellformed (.enc (.plain 9))
    (.enc (.plain 5)) ("m") ⟨[], ⟨[("m", .enc (.plain 5))], []⟩, [], 0⟩
    (.plain 5) (by rfl) (by rfl) (by rfl) (by rfl)

/-- C9: when the persistent model write succeeds but persisting a Plan's
state tensors fails with a uniqueness violation, `save_model` returns a
failure result carrying the persistence error message, while the model record
already written to the Persistent Store stays in place, the model stays in
the Cache, and the tensor table is unchanged. -/
theorem save_plan_tensor_failure_partial (model_id : String) (s : NodeState)
    (p : Nat) (ids : List String) (ts : List (String × TensorData))
    (hc : alookup s.cache model_id = none)
    (hdb : alookup s.db.models model_id = none)
    (hcol : collect_tensors ids s.objStore = .ok ts)
    (hviol : tensor_ids_violate ts s.db.tensors = true) :
    save_model (.enc (.plan p ids)) model_id s
      = .ret (.err ("UNIQUE constraint failed: torch_tensor.id"))
          ⟨(model_id, .mdl (.plan p ids)) :: s.cache,
            ⟨s.db.models ++ [(model_id, .enc (.plan p ids))], s.db.tensors⟩,
            s.objStore, s.dbAccesses + 2⟩ ∧
    alookup (s.db.models ++ [(model_id, .enc (.plan p ids))]) model_id
      = some (.enc (.plan p ids)) := by
  have hmiss : is_model_in_cache model_id s = false := is_model_in_cache_false hc
  refine ⟨?_, by rw [alookup_append_of_none _ hdb]; simp [alookup]⟩
  unfold save_model
  rw [if_neg (by simp [hmiss])]
  simp only [save_model_body, _save_model_in_db, hdb, deserialize,
    save_model_to_cache, is_model_in_cache, hc, Option.isSome_none,
    Bool.false_eq_true, _save_states_in_db, hcol, hviol, isSQLAlchemyError,
    save_model_handler, isExactlyIntegrityError, get_model_with_id,
    get_model_from_cache, alookup_cons_self, Option.isSome_some, exnStr,
    reduceIte]

/-- Witness for C9: saving a Plan whose single state tensor id already has a
row in the tensor table. -/
theorem save_plan_tensor_failure_partial_witness :
    save_model (.enc (.plan 3 ["t1"])) ("m") ⟨[], ⟨[], [("t1", 5)]⟩, [("t1", 9)], 0⟩
      = .ret (.err ("UNIQUE constraint failed: torch_tensor.id"))
          ⟨[("m", .mdl (.plan 3 ["t1"]))], ⟨[("m", .enc (.plan 3 ["t1"]))], [("t1", 5)]⟩,
            [("t1", 9)], 2⟩ ∧
    alookup ([("m", Blob.enc (.plan 3 ["t1"]))]) ("m")
      = some (Blob.enc (.plan 3 ["t1"])) := by
  exact save_plan_tensor_failure_partial ("m") ⟨[], ⟨[], [("t1", 5)]⟩, [("t1", 9)], 0⟩
    3 (["t1"]) ([("t1", 9)]) (by rfl) (by rfl) (by rfl) (by rfl)

/-- Counterexample to C5 as stated: `get_model_with_id` raises — rather than
returning a result value — when the durably stored blob cannot be
deserialized, because only `SQLAlchemyError` is caught. -/
theorem get_model_raises_on_malformed_blob :
    get_model_with_id ("m") ⟨[], ⟨[("m", .malformed ("boom"))], []⟩, [], 0⟩
      = .raised (.deserializeError ("boom"))
          ⟨[], ⟨[("m", .malformed ("boom"))], []⟩, [], 1⟩ := by
  rfl

lemma not_mem_map_fst_filter {α : Type} (l : List (String × α)) (k : String) :
    k ∉ (l.filter (fun p => p.1 != k)).map Prod.fst := by
  intro hmem
  obtain ⟨p, hp, hpk⟩ := List.mem_map.mp hmem
  exact (bne_iff_ne.mp (List.mem_filter.mp hp).2) hpk

/-- `delete_model` on a present row: removes the cache entry and the row. -/
lemma delete_found {model_id : String} {s : NodeState} {b : Blob}
    (hdb : alookup s.db.models model_id = some b) :
    delete_model model_id s = .ret (.okMsg ("Model Deleted: " ++ model_id))
      ⟨s.cache.filter (fun p => p.1 != model_id),
        ⟨s.db.models.filter (fun p => p.1 != model_id), s.db.tensors⟩,
        s.objStore, s.dbAccesses + 1⟩ := by
  simp only [delete_model, delete_model_body, remove_model_from_cache, hdb]

/-- `delete_model` on a missing row: the cache entry is still removed, the
raised `SQLAlchemyError` is caught and reported as a failure result. -/
lemma delete_missing {model_id : String} {s : NodeState}
    (hdb : alookup s.db.models model_id = none) :
    delete_model model_id s = .ret (.err ("Class NoneType is not mapped"))
      ⟨s.cache.filter (fun p => p.1 != model_id), s.db, s.objStore,
        s.dbAccesses + 1⟩ := by
  simp only [delete_model, delete_model_body, remove_model_from_cache, hdb,
    isSQLAlchemyError, exnStr]
  rfl

/-- C5 (amended): persistence-layer errors (`SQLAlchemyError`, including
`IntegrityError`) never cross the model-manager boundary — any exception that
does propagate out of `save_model` or `get_model_with_id` is not a
persistence error (it stems from deserialization, a missing object, or a
missing tensor row), and `delete_model` and `list_models` always return a
result value. -/
theorem mm_boundary_persistence_errors_caught :
    (∀ (b : Blob) (id : String) (s s1 : NodeState) (e : Exn),
        save_model b id s = .raised e s1 → isSQLAlchemyError e = false) ∧
    (∀ (id : String) (s s1 : NodeState) (e : Exn),
        get_model_with_id id s = .raised e s1 → isSQLAlchemyError e = false) ∧
    (∀ (id : String) (s : NodeState), ∃ r s1, delete_model id s = .ret r s1) ∧
    (∀ (s : NodeState), ∃ r s1, list_models s = .ret r s1) := by
  refine ⟨fun b id s s1 e h => save_model_raised_not_sql h,
    fun id s s1 e h => gmw_raised_not_sql h, fun id s => ?_, fun s => ?_⟩
  · cases hdb : alookup s.db.models id with
    | some b => exact ⟨_, _, delete_found hdb⟩
    | none => exact ⟨_, _, delete_missing hdb⟩
  · exact ⟨_, _, rfl⟩

/-- Witness for C5 (amended): the exception propagating out of
`get_model_with_id` on a malformed stored blob is not a persistence error. -/
theorem mm_boundary_persistence_errors_caught_witness :
    isSQLAlchemyError (.deserializeError ("boom")) = false := by
  exact mm_boundary_persistence_errors_caught.2.1 ("m")
    ⟨[], ⟨[("m", .malformed ("boom"))], []⟩, [], 0⟩
    ⟨[], ⟨[("m", .malformed ("boom"))], []⟩, [], 1⟩
    (.deserializeError ("boom")) (by rfl)

/-- C6: after a successful `delete_model`, `get_model_with_id` reports the
model as not found and `list_models` no longer lists the id; the cache entry
is removed first and this removal also happens (and is not reverted) when the
persistent delete fails. -/
theorem delete_completeness (model_id : String) (s : NodeState) (r : MMResult)
    (s1 : NodeState) (h : delete_model model_id s = .ret r s1) :
    alookup s1.cache model_id = none ∧
    (r.isSuccess = true →
      get_model_with_id model_id s1 = .ret (.err ("Model not found"))
          { s1 with dbAccesses := s1.dbAccesses + 1 } ∧
      list_models s1 = .ret (.okModels (s1.db.models.map Prod.fst))
          { s1 with dbAccesses := s1.dbAccesses + 1 } ∧
      model_id ∉ s1.db.models.map Prod.fst) := by
  cases hdb : alookup s.db.models model_id with
  | some b =>
    rw [delete_found hdb] at h
    cases h
    refine ⟨alookup_filter_self _ _, fun _ => ⟨?_, rfl, ?_⟩⟩
    · exact gmw_not_found (alookup_filter_self _ _) (alookup_filter_self _ _)
    · exact not_mem_map_fst_filter _ _
  | none =>
    rw [delete_missing hdb] at h
    cases h
    exact ⟨alookup_filter_self _ _, fun hs => Bool.noConfusion hs⟩

/-- Witness for C6: deleting a cached, persisted model. -/
theorem delete_completeness_witness :
    alookup (⟨[], ⟨[], []⟩, [], 1⟩ : NodeState).cache ("m") = none ∧
    ((MMResult.okMsg ("Model Deleted: m")).isSuccess = true →
      get_model_with_id ("m") ⟨[], ⟨[], []⟩, [], 1⟩
          = .ret (.err ("Model not found")) ⟨[], ⟨[], []⟩, [], 2⟩ ∧
      list_models ⟨[], ⟨[], []⟩, [], 1⟩
          = .ret (.okModels []) ⟨[], ⟨[], []⟩, [], 2⟩ ∧
      ("m") ∉ (([] : List (String × Blob)).map Prod.fst)) := by
  exact delete_completeness ("m")
    ⟨[("m", .mdl (.plain 1))], ⟨[("m", .enc (.plain 1))], []⟩, [], 0⟩
    (.okMsg ("Model Deleted: m")) ⟨[], ⟨[], []⟩, [], 1⟩ (by rfl)

/-! ## Relay theorems -/

/-- C7: any exception raised by the body of the `/cmd` handler — during
cold-check, decoding, execution or snapshotting — is caught, and the
exception's textual description is emitted as the normal command response;
the handler itself never propagates an exception. -/
theorem cmd_never_propagates (engine : Engine) (msg : String) (rs : RelayState)
    (e : Exn) (s1 : RelayState) (h : cmd_body engine msg rs = .raised e s1) :
    cmd engine msg rs = (exnStr e, s1) := by
  unfold cmd
  rw [h]

/-- Witness for C7: a malformed (non-hex-decodable) message yields the error
string as the response. -/
theorem cmd_never_propagates_witness :
    cmd (fun bs os => .ok (bs, os)) ("abzzc") ⟨[("t", 1)], [], 0⟩
      = (("Non-hexadecimal digit found"), ⟨[("t", 1)], [], 0⟩) := by
  exact cmd_never_propagates (fun bs os => .ok (bs, os)) ("abzzc")
    ⟨[("t", 1)], [], 0⟩ (.decodeError ("Non-hexadecimal digit found"))
    ⟨[("t", 1)], [], 0⟩ (by rfl)

lemma cmd_recoveryCalls_eq_cold (engine : Engine) (msg : String) (rs : RelayState) :
    (cmd engine msg rs).2.recoveryCalls = (cold_check rs).recoveryCalls := by
  unfold cmd cmd_body
  cases hu : unhexlify (strSlice_2_m1 msg) with
  | error e => rfl
  | ok bs =>
    cases he : engine bs (cold_check rs).objStore with
    | error e => simp only [he]
    | ok pr =>
      obtain ⟨out, os⟩ := pr
      simp only [he, snapshot]

lemma cold_check_recoveryCalls (rs : RelayState) :
    (cold_check rs).recoveryCalls
      = rs.recoveryCalls + (if rs.objStore.length == 0 then 1 else 0) := by
  unfold cold_check recover_objects
  by_cases h : (rs.objStore.length == 0) = true
  · rw [if_pos h, if_pos h]
  · rw [if_neg h, if_neg h, Nat.add_zero]

/-- C8: a `/cmd` invocation performs exactly one recovery call when the
Object Store holds zero objects at the start of handling, and none
otherwise. -/
theorem cmd_recovery_iff_cold (engine : Engine) (msg : String) (rs : RelayState) :
    (cmd engine msg rs).2.recoveryCalls
      = rs.recoveryCalls + (if rs.objStore.length == 0 then 1 else 0) := by
  rw [cmd_recoveryCalls_eq_cold, cold_check_recoveryCalls]

/-- C10: the relay hex-decodes the inbound message with its first two
characters and last character removed (the Python bytes-repr framing), hands
the decoded bytes to the engine, and emits the repr of the hexlified response
bytes; a well-formed hex payload that is not wrapped in this framing (such as
`0a`) is not decoded as sent — its framing-stripped slice decodes to the empty
byte string, although the payload as sent would decode to a byte. -/
theorem cmd_bytes_repr_framing (engine : Engine) (msg : String) (rs : RelayState)
    (bs out : List Nat) (os : ObjStore)
    (h1 : unhexlify (strSlice_2_m1 msg) = .ok bs)
    (h2 : engine bs (cold_check rs).objStore = .ok (out, os)) :
    cmd engine msg rs = (bytesRepr out, ⟨os, os, (cold_check rs).recoveryCalls⟩) ∧
    unhexlify (strSlice_2_m1 ("b\x270a\x27")) = .ok ([10]) ∧
    strSlice_2_m1 ("0a") = "" ∧
    unhexlify ("0a") = .ok ([10]) := by
  refine ⟨?_, by rfl, by rfl, by rfl⟩
  simp only [cmd, cmd_body, h1, h2, snapshot]

/-- Witness for C10: a framed message `b'0a'` round-trips through an
identity engine on a warm store. -/
theorem cmd_bytes_repr_framing_witness :
    cmd (fun bs os => .ok (bs, os)) ("b\x270a\x27") ⟨[("t", 1)], [], 0⟩
        = (bytesRepr ([10]), ⟨[("t", 1)], [("t", 1)], 0⟩) ∧
      unhexlify (strSlice_2_m1 ("b\x270a\x27")) = .ok ([10]) ∧
      strSlice_2_m1 ("0a") = "" ∧
      unhexlify ("0a") = .ok ([10]) := by
  exact cmd_bytes_repr_framing (fun bs os => .ok (bs, os)) ("b\x270a\x27")
    ⟨[("t", 1)], [], 0⟩ [10] [10] [("t", 1)] (by rfl) (by rfl)

end GridNode
